import Mathlib

/-!
Shallow embedding of `src/server.py` (ALCPT grammar-checker backend).

External collaborators (Python's `json.loads`, the OpenAI chat/whisper
clients, the filesystem, the request clock) are modelled as explicit
parameters; everything else is translated line by line from the source.
Machine strings are `String` / `List Char` (Python `str` is a sequence of
code points, which `List Char` matches); Python `int` is `Int`.
-/

/-- JSON values, the possible results of Python's `json.loads`.
Objects are insertion-ordered association lists, as Python dicts are. -/
inductive JVal where
  | jnull : JVal
  | jbool : Bool → JVal
  | jnum : Int → JVal
  | jstr : String → JVal
  | jarr : List JVal → JVal
  | jobj : List (String × JVal) → JVal

/-- A Python dict with string keys and JSON values (insertion ordered). -/
abbrev Dict := List (String × JVal)

/-- Python `d[k]` lookup as an option: the value at the first matching key. -/
def getKey? (d : Dict) (k : String) : Option JVal :=
  (d.find? (fun kv => kv.1 = k)).map (fun kv => kv.2)

/-- Python `d[k] = v`: update the first binding of `k` in place (dicts keep
the key's original position), or append a new binding at the end. -/
def setKey : Dict → String → JVal → Dict
  | [], k, v => [(k, v)]
  | (k', v') :: rest, k, v =>
      if k' = k then (k, v) :: rest else (k', v') :: setKey rest k v

/-- One grammar point of the catalog (`grammar_points.json` entries):
fields `id`, `title`, `rule`, `example` as used by `server.py`
(the `example` field is spelled `exampleText` because `example` is a
Lean keyword). -/
structure GrammarPoint where
  id : Int
  title : String
  rule : String
  exampleText : String
deriving DecidableEq, Repr

/-- The character U+007B (opening curly bracket). -/
def lbrace : Char := Char.ofNat 123

/-- The character U+007D (closing curly bracket). -/
def rbrace : Char := Char.ofNat 125

/-- Python `raw.rfind(c)`: index of the last occurrence of `c`, as an
option (`none` models Python's `-1`). -/
def rfindIdx? (l : List Char) (c : Char) : Option Nat :=
  (l.reverse.findIdx? (fun x => x = c)).map (fun i => l.length - 1 - i)

/-- Python slice `l[start:stop]` (clamping semantics of drop/take match
Python's slice clamping for `0 ≤ start ≤ stop`). -/
def pySlice (l : List Char) (start stop : Nat) : List Char :=
  (l.drop start).take (stop - start)

/-- The error object `{"error": msg, "raw": raw}` built at
`server.py:141` and `server.py:143`. -/
def errorObj (msg : String) (raw : List Char) : JVal :=
  JVal.jobj [("error", JVal.jstr msg), ("raw", JVal.jstr (String.mk raw))]

/-- The response-reconciliation logic of `run_grammar_llm`
(`server.py:132-144`), parameterised by `parse`, the model of Python's
`json.loads` (`none` models a raised `JSONDecodeError`):
try the whole string; on failure slice from the first `{` to the last `}`
(plain index search) and try that; otherwise produce an error object. -/
def reconcile (parse : List Char → Option JVal) (raw : List Char) : JVal :=
  match parse raw with
  | some result => result
  | none =>
      match raw.findIdx? (fun x => x = lbrace), rfindIdx? raw rbrace with
      | some start, some stop =>
          (match parse (pySlice raw start (stop + 1)) with
           | some result => result
           | none => errorObj "Could not parse GPT response" raw)
      | some _, none => errorObj "Invalid response" raw
      | none, _ => errorObj "Invalid response" raw

/-- The line `f"{p['id']}. {p['title']} - {p['rule']} Example: {p['example']}"`
rendered for one catalog entry (`server.py:43`). -/
def renderGrammarPoint (p : GrammarPoint) : String :=
  toString p.id ++ ". " ++ p.title ++ " - " ++ p.rule ++ " Example: " ++ p.exampleText

/-- `grammar_points_block` (`server.py:41-45`): every catalog entry on its
own line, joined by newline, in catalog (insertion) order. -/
def grammar_points_block (pts : List GrammarPoint) : String :=
  String.intercalate "\n" (pts.map renderGrammarPoint)

/-- The focus block computed at `server.py:48-52`. Python's
`if selected_id:` is falsy for both `None` and `0`; the lookup is
`next((p for p in GRAMMAR_POINTS if p["id"] == int(selected_id)), None)`
and a failed lookup leaves the block empty. -/
def selectedBlock (pts : List GrammarPoint) (selected_id : Option Int) : String :=
  match selected_id with
  | none => ""
  | some i =>
      if i = 0 then ""
      else
        match pts.find? (fun p => p.id = i) with
        | some p => "\nFocus on grammar point #" ++ toString p.id ++ ": " ++ p.title
        | none => ""

/-- The fixed instruction header of the prompt f-string (`server.py:54-63`). -/
def promptHeader : String :=
  "\nYou are an ESL grammar coach. Analyze the learner’s sentence (always assume it should be English).\nReply ONLY in valid JSON with:\n- corrected: string\n- explanation: string (simple explanation for learner)\n- grammar_ok: boolean\n- score: integer 0-100\n- matched_grammar_id: integer 1-70\n- matched_grammar_label: string\n\nGrammar Points:\n"

/-- `make_prompt` (`server.py:47-70`), parameterised by the catalog
(`GRAMMAR_POINTS` module state in the source). -/
def make_prompt (pts : List GrammarPoint) (user_text : String) (selected_id : Option Int) : String :=
  promptHeader ++ grammar_points_block pts ++ "\n" ++ selectedBlock pts selected_id
    ++ "\n\nLearner sentence (English only expected):\n\"\"\"" ++ user_text ++ "\"\"\"\n"

/-- Python `s.strip()`: the string with leading and trailing whitespace
removed (executable over the character list). -/
def pyStrip (s : String) : String :=
  String.mk (((s.toList.dropWhile Char.isWhitespace).reverse.dropWhile
    Char.isWhitespace).reverse)

/-- Python `s.isdigit()` restricted to ASCII digits (the only digits the
route guards meet): non-empty and every character a digit. -/
def pyIsdigit (s : String) : Bool :=
  !s.isEmpty && s.toList.all Char.isDigit

/-- Python `int(s)` for a digit string: the base-10 value of the digits
(total; the routes only reach this conversion behind the `isdigit`
guards). -/
def pyIntOfDigits (s : String) : Int :=
  Int.ofNat (s.toList.foldl (fun acc c => 10 * acc + (c.toNat - 48)) 0)

/-- One line of the CSV audit log `learner_logs.csv`: the header row of
field names written by `writer.writeheader()`, or one data row (cells in
field order, `none` for a Python `None` cell). -/
inductive CsvLine where
  | header : List String → CsvLine
  | entry : List (Option JVal) → CsvLine

/-- The audit-log field names, in the insertion order of the `row` dict
built at `server.py:78-87`. -/
def logFieldNames : List String :=
  ["learner_id", "timestamp", "transcript", "correction", "explanation",
   "score", "grammar_point", "selected_point"]

/-- The cells of one audit-log row (`server.py:78-87`): the learner id and
timestamp strings, then `data.get(...)` for each logged result field
(`none` models Python `None` for a missing key). -/
def logRowCells (learner_id now : String) (data : Dict) : List (Option JVal) :=
  [some (JVal.jstr learner_id), some (JVal.jstr now),
   getKey? data "transcript", getKey? data "corrected", getKey? data "explanation",
   getKey? data "score", getKey? data "matched_grammar_label",
   getKey? data "selected_grammar_label"]

/-- `save_log` (`server.py:77-93`), with the filesystem explicit: `fs` is
the current `learner_logs.csv` (`none` when the file does not exist, which
is what `os.path.isfile` checks); the result is the file content after the
call. Open mode `"a"` appends; the header is written only when the file
did not exist. The wall clock `datetime.now()` is the parameter `now`. -/
def save_log (learner_id now : String) (data : Dict) (fs : Option (List CsvLine)) : List CsvLine :=
  match fs with
  | none => [CsvLine.header logFieldNames, CsvLine.entry (logRowCells learner_id now data)]
  | some lines => lines ++ [CsvLine.entry (logRowCells learner_id now data)]

/-- Audio bytes of an uploaded file (a present `FileStorage`, possibly
with empty content). -/
abbrev AudioFile := List Nat

/-- Outcome of the body of the `try` block in `transcribe_audio_to_text`
(`server.py:101-111`) for a present file: an exception before the remote
whisper call (temp-file handling), an exception from the remote call
itself, a reply object carrying a `text` attribute, or a reply object
lacking one. -/
inductive TrOutcome where
  | saveFailure : String → TrOutcome
  | callFailure : String → TrOutcome
  | replyWithText : String → TrOutcome
  | replyNoText : TrOutcome
deriving DecidableEq

/-- `transcribe_audio_to_text` (`server.py:98-114`), parameterised by the
remote outcome. Returns the transcript string paired with whether the
remote speech-to-text capability was invoked. A `None` file returns `""`
at once; every exception is caught by the bare `except` and degraded to
`""`; a reply without a `text` attribute yields `""`; otherwise the reply
text is trimmed (`tr.text.strip()`). -/
def transcribe_audio_to_text (remote : TrOutcome) (file_storage : Option AudioFile) : String × Bool :=
  match file_storage with
  | none => ("", false)
  | some _ =>
      match remote with
      | TrOutcome.saveFailure _ => ("", false)
      | TrOutcome.callFailure _ => ("", true)
      | TrOutcome.replyWithText t => (pyStrip t, true)
      | TrOutcome.replyNoText => ("", true)

/-- `run_grammar_llm` (`server.py:119-144`), with the remote chat
completion modelled as `llm`, a function from the built user prompt to
either a raised exception (`Except.error`) or the reply content string
(the fixed system message and sampling options of `server.py:122-129` are
part of the remote configuration and carry no logic). On a reply, the
content is trimmed (`server.py:131`) and reconciled (`server.py:132-144`).
A raised remote exception propagates: there is no handler around the call. -/
def run_grammar_llm (pts : List GrammarPoint) (parse : List Char → Option JVal)
    (llm : String → Except String String)
    (user_text : String) (grammar_id : Option Int) : Except String JVal :=
  let prompt := make_prompt pts user_text grammar_id
  match llm prompt with
  | Except.error e => Except.error e
  | Except.ok content => Except.ok (reconcile parse ((pyStrip content).toList))

/-- The HTTP-level outcome of a route handler: a 400 response with an
error message, a 200 response with a JSON body, or an uncaught Python
exception (Flask turns it into a 500). -/
inductive ApiResponse where
  | badRequest : String → ApiResponse
  | ok : Dict → ApiResponse
  | exception : String → ApiResponse

/-- The label attached at `server.py:174-177` and `server.py:205-208`:
the title of the catalog point with the selected id, else `None`. -/
def selectedLabel (pts : List GrammarPoint) (sel_id : Int) : JVal :=
  match pts.find? (fun p => p.id = sel_id) with
  | some p => JVal.jstr p.title
  | none => JVal.jnull

/-- The result enrichment shared by both POST routes
(`server.py:173-177` and `server.py:204-208`): set `out["transcript"]`
and `out["selected_grammar_label"]` on the evaluation result dict. -/
def attachOutputFields (pts : List GrammarPoint) (sel_id : Int) (transcript : String)
    (fields : Dict) : Dict :=
  setKey (setKey fields "transcript" (JVal.jstr transcript))
    "selected_grammar_label" (selectedLabel pts sel_id)

/-- Outcome of the `/api/text` handler: the response and the audit-log
file content after the request. -/
structure TextOutcome where
  response : ApiResponse
  fs : Option (List CsvLine)

/-- `api_text` (`server.py:157-179`). Form fields arrive stripped
(`request.form.get(..., "").strip()`); the three guards return 400;
otherwise the evaluation runs, the result dict is enriched and logged,
and the body is returned. A remote exception, or an evaluation result
that is not a dict (item assignment on it raises `TypeError`), escapes
the handler before `save_log` runs. -/
def api_text (pts : List GrammarPoint) (parse : List Char → Option JVal)
    (llm : String → Except String String)
    (learner_id grammar_id typed now : String)
    (fs : Option (List CsvLine)) : TextOutcome :=
  let learner_id := pyStrip learner_id
  let grammar_id := pyStrip grammar_id
  let typed := pyStrip typed
  if pyIsdigit learner_id = false then
    ⟨ApiResponse.badRequest "Learner ID (numbers only) is required.", fs⟩
  else if pyIsdigit grammar_id = false then
    ⟨ApiResponse.badRequest "Grammar point selection is required.", fs⟩
  else if typed = "" then
    ⟨ApiResponse.badRequest "No text provided.", fs⟩
  else
    let sel_id := pyIntOfDigits grammar_id
    match run_grammar_llm pts parse llm typed (some sel_id) with
    | Except.error e => ⟨ApiResponse.exception e, fs⟩
    | Except.ok (JVal.jobj fields) =>
        let out := attachOutputFields pts sel_id typed fields
        ⟨ApiResponse.ok out, some (save_log learner_id now out fs)⟩
    | Except.ok _ => ⟨ApiResponse.exception "TypeError", fs⟩

/-- Outcome of the `/api/grammar` handler: the response, the audit-log
file content after the request, whether `transcribe_audio_to_text` was
invoked, whether the remote speech-to-text capability was invoked, and
whether the remote evaluation was invoked. -/
structure GrammarOutcome where
  response : ApiResponse
  fs : Option (List CsvLine)
  adapterCalled : Bool
  sttCalled : Bool
  llmCalled : Bool

/-- `api_grammar` (`server.py:181-210`). After the two id guards, the
transcript is the stripped `typed` field if non-empty, else the result of
`transcribe_audio_to_text(request.files.get("audio"))`; an empty
transcript returns 400 before any evaluation; the rest matches
`api_text`. -/
def api_grammar (pts : List GrammarPoint) (parse : List Char → Option JVal)
    (llm : String → Except String String)
    (remote : TrOutcome) (audio : Option AudioFile)
    (learner_id grammar_id typed now : String)
    (fs : Option (List CsvLine)) : GrammarOutcome :=
  let learner_id := pyStrip learner_id
  let grammar_id := pyStrip grammar_id
  if pyIsdigit learner_id = false then
    ⟨ApiResponse.badRequest "Learner ID (numbers only) is required.", fs, false, false, false⟩
  else if pyIsdigit grammar_id = false then
    ⟨ApiResponse.badRequest "Grammar point selection is required.", fs, false, false, false⟩
  else
    let typed := pyStrip typed
    let tr := if typed = "" then
        ((transcribe_audio_to_text remote audio).1, true, (transcribe_audio_to_text remote audio).2)
      else (typed, false, false)
    let transcript := tr.1
    if transcript = "" then
      ⟨ApiResponse.badRequest "No speech or text found.", fs, tr.2.1, tr.2.2, false⟩
    else
      let sel_id := pyIntOfDigits grammar_id
      match run_grammar_llm pts parse llm transcript (some sel_id) with
      | Except.error e => ⟨ApiResponse.exception e, fs, tr.2.1, tr.2.2, true⟩
      | Except.ok (JVal.jobj fields) =>
          let out := attachOutputFields pts sel_id transcript fields
          ⟨ApiResponse.ok out, some (save_log learner_id now out fs), tr.2.1, tr.2.2, true⟩
      | Except.ok _ => ⟨ApiResponse.exception "TypeError", fs, tr.2.1, tr.2.2, true⟩

/-- The catalog path constant `GRAMMAR_JSON_PATH` (`server.py:28`). -/
def GRAMMAR_JSON_PATH : String := "grammar_points.json"

/-- `load_grammar_points` (`server.py:30-34`), with the filesystem and
`json.load` explicit: a missing file raises `FileNotFoundError` with the
message of `server.py:32`; unparsable content raises `JSONDecodeError`;
otherwise the parsed JSON value is returned as-is — the structure is not
validated against the grammar-point shape. Both exceptions are raised at
module import (`server.py:36`), so they are fatal startup errors. -/
def load_grammar_points (path : String) (fileContent : Option String)
    (jsonLoad : String → Option JVal) : Except String JVal :=
  match fileContent with
  | none => Except.error ("Could not find grammar file at: " ++ path)
  | some content =>
      match jsonLoad content with
      | none => Except.error "JSONDecodeError"
      | some j => Except.ok j

/-! ## Helper lemmas -/

/-- After `d[k] = v`, looking up `k` yields `v`. -/
theorem getKey?_setKey_self (d : Dict) (k : String) (v : JVal) :
    getKey? (setKey d k v) k = some v := by
  induction d with
  | nil => simp [setKey, getKey?]
  | cons kv rest ih =>
      by_cases h : kv.1 = k
      · simp [setKey, h, getKey?]
      · obtain ⟨k', v'⟩ := kv
        simp only at h
        simp [setKey, h, getKey?, List.find?_cons, ih]
        simpa [getKey?] using ih

/-- After `d[k] = v`, looking up a different key is unchanged. -/
theorem getKey?_setKey_ne (d : Dict) (k k2 : String) (v : JVal) (h : k ≠ k2) :
    getKey? (setKey d k v) k2 = getKey? d k2 := by
  induction d with
  | nil => simp [setKey, getKey?, h]
  | cons kv rest ih =>
      obtain ⟨k', v'⟩ := kv
      by_cases h' : k' = k
      · simp [setKey, h', getKey?, List.find?_cons, h]
      · simp only [setKey, h', if_false]
        simp [getKey?, List.find?_cons] at ih ⊢
        by_cases h2 : k' = k2 <;> simp [h2, ih]

/-! ## Claim theorems -/

/-- C1: the Response Reconciler, given any raw reply, first attempts a
strict parse of the whole string and on success returns the parsed value
as-is (no schema validation); on parse failure it locates the first `{`
and the last `}` by plain index search and, if both exist, parses the
inclusive slice between them, returning that value on success; when both
attempts fail, or a brace is missing, only an error object results — no
other parsing strategy is applied. -/
theorem c1_reconciler_two_step (parse : List Char → Option JVal) (raw : List Char) :
    (∀ j, parse raw = some j → reconcile parse raw = j) ∧
    (parse raw = none →
      (∀ s e, raw.findIdx? (fun x => x = lbrace) = some s →
          rfindIdx? raw rbrace = some e →
          (∀ j, parse (pySlice raw s (e + 1)) = some j → reconcile parse raw = j) ∧
          (parse (pySlice raw s (e + 1)) = none →
            reconcile parse raw = errorObj "Could not parse GPT response" raw)) ∧
      ((raw.findIdx? (fun x => x = lbrace) = none ∨ rfindIdx? raw rbrace = none) →
        reconcile parse raw = errorObj "Invalid response" raw)) := by
  refine ⟨fun j hj => ?_, fun hnone => ⟨fun s e hs he => ⟨fun j hj => ?_, fun hsl => ?_⟩, fun hbr => ?_⟩⟩
  · simp only [reconcile, hj]
  · simp only [reconcile, hnone, hs, he, hj]
  · simp only [reconcile, hnone, hs, he, hsl]
  · rcases hbr with h | h
    · simp only [reconcile, hnone, h]
    · cases hx : raw.findIdx? (fun x => x = lbrace) <;>
        simp only [reconcile, hnone, h, hx]

/-- Witness for C1: on the reply `"noise {X} tail"` with a parse that
only accepts the slice `"{X}"`, the whole-string attempt fails, the
first-`{`/last-`}` slice succeeds, and its value is returned. -/
theorem c1_reconciler_two_step_witness :
    reconcile (fun s => if s = String.toList "\x7bX\x7d" then some (JVal.jnum 7) else none)
      (String.toList "noise \x7bX\x7d tail") = JVal.jnum 7 :=
  (((c1_reconciler_two_step
      (fun s => if s = String.toList "\x7bX\x7d" then some (JVal.jnum 7) else none)
      (String.toList "noise \x7bX\x7d tail")).2 (by rfl)).1 6 8 (by decide) (by decide)).1
    (JVal.jnum 7) (by rfl)

/-- C2: the Response Reconciler returns exactly two error shapes: when the
whole-string parse fails and the first-`{`/last-`}` slice also fails, the
object with error `"Could not parse GPT response"` and the full raw
string; when no `{` or no `}` exists, the object with error
`"Invalid response"` and the full raw string; in particular the
unterminated reply `'{"score": 90'` (no closing brace) takes the
`"Invalid response"` path. -/
theorem c2_reconciler_error_shapes (parse : List Char → Option JVal) (raw : List Char) :
    (parse raw = none →
      ∀ s e, raw.findIdx? (fun x => x = lbrace) = some s →
        rfindIdx? raw rbrace = some e →
        parse (pySlice raw s (e + 1)) = none →
        reconcile parse raw =
          JVal.jobj [("error", JVal.jstr "Could not parse GPT response"),
                     ("raw", JVal.jstr (String.mk raw))]) ∧
    (parse raw = none →
      (raw.findIdx? (fun x => x = lbrace) = none ∨ rfindIdx? raw rbrace = none) →
      reconcile parse raw =
        JVal.jobj [("error", JVal.jstr "Invalid response"),
                   ("raw", JVal.jstr (String.mk raw))]) ∧
    (parse (String.toList "\x7b\"score\": 90") = none →
      reconcile parse (String.toList "\x7b\"score\": 90") =
        JVal.jobj [("error", JVal.jstr "Invalid response"),
                   ("raw", JVal.jstr "\x7b\"score\": 90")]) := by
  refine ⟨fun hnone s e hs he hsl => ?_, fun hnone hbr => ?_, fun hnone => ?_⟩
  · simp only [reconcile, hnone, hs, he, hsl, errorObj]
  · rcases hbr with h | h
    · simp only [reconcile, hnone, h, errorObj]
    · cases hx : raw.findIdx? (fun x => x = lbrace) <;>
        simp only [reconcile, hnone, h, hx, errorObj]
  · have h : rfindIdx? (String.toList "\x7b\"score\": 90") rbrace = none := by decide
    cases hx : (String.toList "\x7b\"score\": 90").findIdx? (fun x => x = lbrace) <;>
      simp only [reconcile, hnone, h, hx, errorObj] <;> rfl

/-- Witness for C2: the brace-free reply `"no json here"` with a parse
that rejects it lands on the `"Invalid response"` error object carrying
the full raw string. -/
theorem c2_reconciler_error_shapes_witness :
    reconcile (fun _ => none) (String.toList "no json here") =
      JVal.jobj [("error", JVal.jstr "Invalid response"),
                 ("raw", JVal.jstr "no json here")] :=
  (c2_reconciler_error_shapes (fun _ => none) (String.toList "no json here")).2.1
    rfl (Or.inl (by decide))

/-- C7: the Transcription Adapter never raises to its caller — an
exception before the remote call, an exception from the remote call, and
a reply lacking a `text` attribute all yield the empty string; the only
other outcome is the trimmed reply text. -/
theorem c7_transcription_never_raises (file : Option AudioFile) :
    (∀ e, (transcribe_audio_to_text (TrOutcome.saveFailure e) file).1 = "") ∧
    (∀ e, (transcribe_audio_to_text (TrOutcome.callFailure e) file).1 = "") ∧
    (transcribe_audio_to_text TrOutcome.replyNoText file).1 = "" ∧
    (∀ t, (transcribe_audio_to_text (TrOutcome.replyWithText t) file).1 = pyStrip t ∨
          (transcribe_audio_to_text (TrOutcome.replyWithText t) file).1 = "") := by
  cases file <;> simp [transcribe_audio_to_text]

/-- C8 counterexample: a present-but-empty audio file is not
short-circuited — the claim says an empty audio input returns the empty
string immediately without invoking the remote capability, but the source
only checks `file_storage is None`, so an empty `FileStorage` reaches the
remote call (call flag `true`) and returns whatever it transcribes. -/
theorem c8_empty_file_calls_remote :
    (transcribe_audio_to_text (TrOutcome.replyWithText "hello") (some ([] : AudioFile))).2 = true ∧
    (transcribe_audio_to_text (TrOutcome.replyWithText "hello") (some ([] : AudioFile))).1 = "hello" := by
  constructor
  · rfl
  · rfl

/-- C8 amended: for every absent audio input (`None` file), the
Transcription Adapter returns the empty string immediately without
invoking the remote speech-to-text capability. -/
theorem c8_absent_audio_no_remote_call (remote : TrOutcome) :
    transcribe_audio_to_text remote none = ("", false) := rfl

/-- C10 counterexample: the loader does not validate the structure of the
catalog. The file content `"42"` is valid JSON (Python's `json.load`
returns the integer `42` for it) but is not a sequence of grammar points,
yet `load_grammar_points` succeeds — refuting the claim that load fails
whenever the content is not parseable as the expected structure of
grammar points. -/
theorem c10_wrong_structure_loads :
    load_grammar_points GRAMMAR_JSON_PATH (some "42")
      (fun s => if s = "42" then some (JVal.jnum 42) else none) =
      Except.ok (JVal.jnum 42) := rfl

/-- C10 amended: the Grammar Catalog load fails with a fatal startup
error when the catalog file is absent (`FileNotFoundError` with the
source's message) or when its content is not parseable as JSON
(`JSONDecodeError`); on success it returns the parsed JSON content as-is,
without validating the grammar-point structure. (The single invocation at
process start is the module-level assignment at `server.py:36`.) -/
theorem c10_load_contract (path : String) (jsonLoad : String → Option JVal) :
    load_grammar_points path none jsonLoad =
      Except.error ("Could not find grammar file at: " ++ path) ∧
    (∀ c, jsonLoad c = none →
      load_grammar_points path (some c) jsonLoad = Except.error "JSONDecodeError") ∧
    (∀ c j, jsonLoad c = some j →
      load_grammar_points path (some c) jsonLoad = Except.ok j) := by
  refine ⟨rfl, fun c h => ?_, fun c j h => ?_⟩
  · simp only [load_grammar_points, h]
  · simp only [load_grammar_points, h]

/-- Witness for C10's amended theorem: a missing file and an unparsable
file both fail at load with the corresponding startup errors. -/
theorem c10_load_contract_witness :
    load_grammar_points "grammar_points.json" none (fun _ => none) =
      Except.error "Could not find grammar file at: grammar_points.json" ∧
    load_grammar_points "grammar_points.json" (some "oops") (fun _ => none) =
      Except.error "JSONDecodeError" :=
  ⟨(c10_load_contract "grammar_points.json" (fun _ => none)).1,
   (c10_load_contract "grammar_points.json" (fun _ => none)).2.1 "oops" rfl⟩

/-- C3: the Prompt Builder output joins every catalog entry, rendered as
its single line, by newline in catalog insertion order; the rendered
block appears verbatim inside the prompt; and for any focus id that does
not resolve via catalog lookup the prompt equals the prompt with no focus
id at all (no error is raised — the directive is silently omitted). -/
theorem c3_prompt_builder (pts : List GrammarPoint) (t : String) (i : Int)
    (h : pts.find? (fun p => p.id = i) = none) :
    grammar_points_block pts = String.intercalate "\n" (pts.map renderGrammarPoint) ∧
    make_prompt pts t (some i) = make_prompt pts t none ∧
    (∃ tail, make_prompt pts t (some i) = promptHeader ++ (grammar_points_block pts ++ tail)) := by
  have hsb : selectedBlock pts (some i) = "" := by
    simp only [selectedBlock, h]
    split <;> rfl
  refine ⟨rfl, ?_, ?_⟩
  · simp only [make_prompt]
    rw [hsb]
    rfl
  · exact ⟨"\n" ++ selectedBlock pts (some i)
      ++ "\n\nLearner sentence (English only expected):\n\"\"\"" ++ t ++ "\"\"\"\n",
      by simp [make_prompt, String.append_assoc]⟩

/-- Witness for C3: with a one-entry catalog and the unknown focus id 2,
the prompt equals the focus-free prompt. -/
theorem c3_prompt_builder_witness :
    make_prompt [⟨1, "Articles", "Use a and an correctly.", "She is a nurse."⟩] "hi" (some 2) =
      make_prompt [⟨1, "Articles", "Use a and an correctly.", "She is a nurse."⟩] "hi" none :=
  (c3_prompt_builder [⟨1, "Articles", "Use a and an correctly.", "She is a nurse."⟩]
    "hi" 2 (by decide)).2.1

/-- C5: if the remote text-generation call itself errors, the failure
propagates out of `run_grammar_llm` unchanged and out of both route
handlers as an uncaught exception (a 5xx-equivalent), never swallowed or
converted to fallback content, and no audit log row is written (the log
file is untouched). -/
theorem c5_remote_error_propagates (pts : List GrammarPoint)
    (parse : List Char → Option JVal) (e : String)
    (remote : TrOutcome) (audio : Option AudioFile)
    (lid gid typed now : String) (fs : Option (List CsvLine))
    (h1 : pyIsdigit (pyStrip lid) = true) (h2 : pyIsdigit (pyStrip gid) = true)
    (h3 : pyStrip typed ≠ "") :
    (∀ t g, run_grammar_llm pts parse (fun _ => Except.error e) t g = Except.error e) ∧
    api_text pts parse (fun _ => Except.error e) lid gid typed now fs =
      ⟨ApiResponse.exception e, fs⟩ ∧
    api_grammar pts parse (fun _ => Except.error e) remote audio lid gid typed now fs =
      ⟨ApiResponse.exception e, fs, false, false, true⟩ := by
  refine ⟨fun t g => rfl, ?_, ?_⟩
  · simp [api_text, run_grammar_llm, h1, h2, h3]
  · simp [api_grammar, run_grammar_llm, h1, h2, h3]

/-- Witness for C5: with valid ids, non-empty text and a remote
evaluation that raises `"quota"`, `/api/text` surfaces the exception and
leaves the (absent) log file unwritten. -/
theorem c5_remote_error_propagates_witness :
    api_text [] (fun _ => none) (fun _ => Except.error "quota") "7" "1" "x" "T" none =
      ⟨ApiResponse.exception "quota", none⟩ :=
  (c5_remote_error_propagates [] (fun _ => none) "quota" TrOutcome.replyNoText none
    "7" "1" "x" "T" none (by decide) (by decide) (by decide)).2.1

/-- C6: for `/api/grammar` with valid learner and grammar ids, if the
typed field is empty and the audio path yields an empty transcript
(including absent audio), the request fails 400 with
`"No speech or text found."`, the remote evaluation is not invoked and no
audit row is appended; if the typed field is non-empty it is used as the
transcript, the outcome is independent of the audio and transcription
parameters, and the Transcription Adapter is never called. -/
theorem c6_input_resolution (pts : List GrammarPoint) (parse : List Char → Option JVal)
    (llm : String → Except String String) (remote : TrOutcome) (audio : Option AudioFile)
    (lid gid typed now : String) (fs : Option (List CsvLine))
    (h1 : pyIsdigit (pyStrip lid) = true) (h2 : pyIsdigit (pyStrip gid) = true) :
    (pyStrip typed = "" → (transcribe_audio_to_text remote audio).1 = "" →
      api_grammar pts parse llm remote audio lid gid typed now fs =
        ⟨ApiResponse.badRequest "No speech or text found.", fs, true,
         (transcribe_audio_to_text remote audio).2, false⟩) ∧
    (pyStrip typed ≠ "" →
      (∀ remote2 audio2,
        api_grammar pts parse llm remote audio lid gid typed now fs =
          api_grammar pts parse llm remote2 audio2 lid gid typed now fs) ∧
      (api_grammar pts parse llm remote audio lid gid typed now fs).adapterCalled = false ∧
      (∀ body,
        (api_grammar pts parse llm remote audio lid gid typed now fs).response =
          ApiResponse.ok body →
        getKey? body "transcript" = some (JVal.jstr (pyStrip typed)))) := by
  constructor
  · intro ht htr
    simp [api_grammar, h1, h2, ht, htr]
  · intro ht
    refine ⟨fun remote2 audio2 => ?_, ?_, fun body hb => ?_⟩
    · simp [api_grammar, h1, h2, ht]
    · rcases hrun : run_grammar_llm pts parse llm (pyStrip typed)
          (some (pyIntOfDigits (pyStrip gid))) with e | j
      · simp [api_grammar, h1, h2, ht, hrun]
      · cases j <;> simp [api_grammar, h1, h2, ht, hrun]
    · rcases hrun : run_grammar_llm pts parse llm (pyStrip typed)
          (some (pyIntOfDigits (pyStrip gid))) with e | j
      · simp [api_grammar, h1, h2, ht, hrun] at hb
      · cases j <;> simp [api_grammar, h1, h2, ht, hrun] at hb
        case jobj fields =>
          rw [← hb]
          unfold attachOutputFields
          rw [getKey?_setKey_ne _ _ _ _ (by decide), getKey?_setKey_self]

/-- Witness for C6: valid ids, empty typed field and no audio file give
the 400 `"No speech or text found."` response with no remote evaluation
and no log write. -/
theorem c6_input_resolution_witness :
    api_grammar [] (fun _ => none) (fun _ => Except.ok "") TrOutcome.replyNoText none
      "7" "1" "" "T" none =
      ⟨ApiResponse.badRequest "No speech or text found.", none, true, false, false⟩ :=
  (c6_input_resolution [] (fun _ => none) (fun _ => Except.ok "") TrOutcome.replyNoText none
    "7" "1" "" "T" none (by decide) (by decide)).1 (by decide) rfl

/-- Case analysis for the `/api/text` handler: every outcome is a 400
with the log untouched, an uncaught exception with the log untouched, or
a 200 whose enriched body is exactly the dict passed to the single
`save_log` call. -/
theorem api_text_cases (pts : List GrammarPoint) (parse : List Char → Option JVal)
    (llm : String → Except String String) (lid gid typed now : String)
    (fs : Option (List CsvLine)) :
    (∃ msg, api_text pts parse llm lid gid typed now fs =
      ⟨ApiResponse.badRequest msg, fs⟩) ∨
    (∃ e, api_text pts parse llm lid gid typed now fs =
      ⟨ApiResponse.exception e, fs⟩) ∨
    (∃ fields,
      api_text pts parse llm lid gid typed now fs =
        ⟨ApiResponse.ok (attachOutputFields pts (pyIntOfDigits (pyStrip gid))
            (pyStrip typed) fields),
         some (save_log (pyStrip lid) now
           (attachOutputFields pts (pyIntOfDigits (pyStrip gid)) (pyStrip typed) fields)
           fs)⟩) := by
  by_cases q1 : pyIsdigit (pyStrip lid) = false
  · exact Or.inl ⟨"Learner ID (numbers only) is required.", by simp [api_text, q1]⟩
  · by_cases q2 : pyIsdigit (pyStrip gid) = false
    · exact Or.inl ⟨"Grammar point selection is required.", by simp [api_text, q1, q2]⟩
    · by_cases q3 : pyStrip typed = ""
      · exact Or.inl ⟨"No text provided.", by simp [api_text, q1, q2, q3]⟩
      · rcases hrun : run_grammar_llm pts parse llm (pyStrip typed)
            (some (pyIntOfDigits (pyStrip gid))) with e | j
        · exact Or.inr (Or.inl ⟨e, by simp [api_text, q1, q2, q3, hrun]⟩)
        · cases j with
          | jobj fields =>
              exact Or.inr (Or.inr ⟨fields, by simp [api_text, q1, q2, q3, hrun]⟩)
          | jnull =>
              exact Or.inr (Or.inl ⟨"TypeError", by simp [api_text, q1, q2, q3, hrun]⟩)
          | jbool b =>
              exact Or.inr (Or.inl ⟨"TypeError", by simp [api_text, q1, q2, q3, hrun]⟩)
          | jnum n =>
              exact Or.inr (Or.inl ⟨"TypeError", by simp [api_text, q1, q2, q3, hrun]⟩)
          | jstr s =>
              exact Or.inr (Or.inl ⟨"TypeError", by simp [api_text, q1, q2, q3, hrun]⟩)
          | jarr xs =>
              exact Or.inr (Or.inl ⟨"TypeError", by simp [api_text, q1, q2, q3, hrun]⟩)

/-- Case analysis for the `/api/grammar` handler, in the same three
shapes as `api_text_cases` (with the call-tracking flags existential). -/
theorem api_grammar_cases (pts : List GrammarPoint) (parse : List Char → Option JVal)
    (llm : String → Except String String) (remote : TrOutcome) (audio : Option AudioFile)
    (lid gid typed now : String) (fs : Option (List CsvLine)) :
    (∃ msg a s, api_grammar pts parse llm remote audio lid gid typed now fs =
      ⟨ApiResponse.badRequest msg, fs, a, s, false⟩) ∨
    (∃ e a s, api_grammar pts parse llm remote audio lid gid typed now fs =
      ⟨ApiResponse.exception e, fs, a, s, true⟩) ∨
    (∃ tr fields a s,
      api_grammar pts parse llm remote audio lid gid typed now fs =
        ⟨ApiResponse.ok (attachOutputFields pts (pyIntOfDigits (pyStrip gid)) tr fields),
         some (save_log (pyStrip lid) now
           (attachOutputFields pts (pyIntOfDigits (pyStrip gid)) tr fields) fs),
         a, s, true⟩) := by
  by_cases q1 : pyIsdigit (pyStrip lid) = false
  · exact Or.inl ⟨"Learner ID (numbers only) is required.", false, false,
      by simp [api_grammar, q1]⟩
  · by_cases q2 : pyIsdigit (pyStrip gid) = false
    · exact Or.inl ⟨"Grammar point selection is required.", false, false,
        by simp [api_grammar, q1, q2]⟩
    · by_cases q3 : pyStrip typed = ""
      · by_cases q4 : (transcribe_audio_to_text remote audio).1 = ""
        · exact Or.inl ⟨"No speech or text found.", true,
            (transcribe_audio_to_text remote audio).2,
            by simp [api_grammar, q1, q2, q3, q4]⟩
        · rcases hrun : run_grammar_llm pts parse llm
              ((transcribe_audio_to_text remote audio).1)
              (some (pyIntOfDigits (pyStrip gid))) with e | j
          · exact Or.inr (Or.inl ⟨e, true, (transcribe_audio_to_text remote audio).2,
              by simp [api_grammar, q1, q2, q3, q4, hrun]⟩)
          · cases j with
            | jobj fields =>
                exact Or.inr (Or.inr ⟨(transcribe_audio_to_text remote audio).1, fields,
                  true, (transcribe_audio_to_text remote audio).2,
                  by simp [api_grammar, q1, q2, q3, q4, hrun]⟩)
            | jnull =>
                exact Or.inr (Or.inl ⟨"TypeError", true,
                  (transcribe_audio_to_text remote audio).2,
                  by simp [api_grammar, q1, q2, q3, q4, hrun]⟩)
            | jbool b =>
                exact Or.inr (Or.inl ⟨"TypeError", true,
                  (transcribe_audio_to_text remote audio).2,
                  by simp [api_grammar, q1, q2, q3, q4, hrun]⟩)
            | jnum n =>
                exact Or.inr (Or.inl ⟨"TypeError", true,
                  (transcribe_audio_to_text remote audio).2,
                  by simp [api_grammar, q1, q2, q3, q4, hrun]⟩)
            | jstr s =>
                exact Or.inr (Or.inl ⟨"TypeError", true,
                  (transcribe_audio_to_text remote audio).2,
                  by simp [api_grammar, q1, q2, q3, q4, hrun]⟩)
            | jarr xs =>
                exact Or.inr (Or.inl ⟨"TypeError", true,
                  (transcribe_audio_to_text remote audio).2,
                  by simp [api_grammar, q1, q2, q3, q4, hrun]⟩)
      · rcases hrun : run_grammar_llm pts parse llm (pyStrip typed)
            (some (pyIntOfDigits (pyStrip gid))) with e | j
        · exact Or.inr (Or.inl ⟨e, false, false,
            by simp [api_grammar, q1, q2, q3, hrun]⟩)
        · cases j with
          | jobj fields =>
              exact Or.inr (Or.inr ⟨pyStrip typed, fields, false, false,
                by simp [api_grammar, q1, q2, q3, hrun]⟩)
          | jnull =>
              exact Or.inr (Or.inl ⟨"TypeError", false, false,
                by simp [api_grammar, q1, q2, q3, hrun]⟩)
          | jbool b =>
              exact Or.inr (Or.inl ⟨"TypeError", false, false,
                by simp [api_grammar, q1, q2, q3, hrun]⟩)
          | jnum n =>
              exact Or.inr (Or.inl ⟨"TypeError", false, false,
                by simp [api_grammar, q1, q2, q3, hrun]⟩)
          | jstr s =>
              exact Or.inr (Or.inl ⟨"TypeError", false, false,
                by simp [api_grammar, q1, q2, q3, hrun]⟩)
          | jarr xs =>
              exact Or.inr (Or.inl ⟨"TypeError", false, false,
                by simp [api_grammar, q1, q2, q3, hrun]⟩)

/-- C4 counterexample: a completed (200) `/api/text` evaluation whose
result references `matched_grammar_id` has no `matched_grammar_label` key
at all — the source never resolves the matched id against the catalog and
never backfills the label, so when the model reply omits it the key is
absent, not null. This refutes the claim that the label key is never
absent from the result. -/
theorem c4_matched_label_key_absent :
    (api_text [⟨1, "Articles", "Use a and an correctly.", "She is a nurse."⟩]
        (fun _ => some (JVal.jobj [("matched_grammar_id", JVal.jnum 3)]))
        (fun _ => Except.ok "x") "7" "1" "hello" "T" none).response =
      ApiResponse.ok [("matched_grammar_id", JVal.jnum 3),
                      ("transcript", JVal.jstr "hello"),
                      ("selected_grammar_label", JVal.jstr "Articles")] ∧
    getKey? [("matched_grammar_id", JVal.jnum 3), ("transcript", JVal.jstr "hello"),
             ("selected_grammar_label", JVal.jstr "Articles")] "matched_grammar_id" =
      some (JVal.jnum 3) ∧
    getKey? [("matched_grammar_id", JVal.jnum 3), ("transcript", JVal.jstr "hello"),
             ("selected_grammar_label", JVal.jstr "Articles")] "matched_grammar_label" =
      none := by
  refine ⟨rfl, rfl, rfl⟩

/-- C4 amended: for every completed (non-400) evaluation on either POST
route, the `selected_grammar_label` key is always present in the result:
it holds the title of the catalog point matching the selected grammar id
when the lookup resolves, and is explicitly null otherwise.
(`matched_grammar_label` is whatever the model reply carried and may be
absent — the source never resolves `matched_grammar_id`.) -/
theorem c4_selected_label_present (pts : List GrammarPoint) (parse : List Char → Option JVal)
    (llm : String → Except String String) (remote : TrOutcome) (audio : Option AudioFile)
    (lid gid typed now : String) (fs : Option (List CsvLine)) :
    (∀ body, (api_text pts parse llm lid gid typed now fs).response = ApiResponse.ok body →
      getKey? body "selected_grammar_label" =
        some (selectedLabel pts (pyIntOfDigits (pyStrip gid)))) ∧
    (∀ body,
      (api_grammar pts parse llm remote audio lid gid typed now fs).response =
        ApiResponse.ok body →
      getKey? body "selected_grammar_label" =
        some (selectedLabel pts (pyIntOfDigits (pyStrip gid)))) := by
  have key : ∀ (sid : Int) (tr : String) (fields : Dict),
      getKey? (attachOutputFields pts sid tr fields) "selected_grammar_label" =
        some (selectedLabel pts sid) := by
    intro sid tr fields
    unfold attachOutputFields
    rw [getKey?_setKey_self]
  constructor
  · intro body hb
    obtain ⟨msg, h⟩ | ⟨e, h⟩ | ⟨fields, h⟩ := api_text_cases pts parse llm lid gid typed now fs <;>
      rw [h] at hb <;> simp only at hb
    · exact absurd hb (by simp)
    · exact absurd hb (by simp)
    · have hbody : attachOutputFields pts (pyIntOfDigits (pyStrip gid)) (pyStrip typed) fields = body := by
        simpa using hb
      rw [← hbody]
      exact key _ _ _
  · intro body hb
    obtain ⟨msg, a, s, h⟩ | ⟨e, a, s, h⟩ | ⟨tr, fields, a, s, h⟩ :=
        api_grammar_cases pts parse llm remote audio lid gid typed now fs <;>
      rw [h] at hb <;> simp only at hb
    · exact absurd hb (by simp)
    · exact absurd hb (by simp)
    · have hbody : attachOutputFields pts (pyIntOfDigits (pyStrip gid)) tr fields = body := by
        simpa using hb
      rw [← hbody]
      exact key _ _ _

/-- Witness for C4's amended theorem: a completed `/api/text` evaluation
with a resolvable selected id 1 carries the catalog title as the selected
label. -/
theorem c4_selected_label_present_witness :
    getKey? [("transcript", JVal.jstr "hello"),
             ("selected_grammar_label", JVal.jstr "Articles")] "selected_grammar_label" =
      some (selectedLabel [⟨1, "Articles", "Use a and an correctly.", "She is a nurse."⟩] 1) :=
  (c4_selected_label_present [⟨1, "Articles", "Use a and an correctly.", "She is a nurse."⟩]
    (fun _ => some (JVal.jobj [])) (fun _ => Except.ok "x") TrOutcome.replyNoText none
    "7" "1" "hello" "T" none).1
    [("transcript", JVal.jstr "hello"), ("selected_grammar_label", JVal.jstr "Articles")] rfl

/-- C9: the Audit Logger appends exactly one row per completed (non-400)
evaluation on either POST route — including error-shaped result dicts —
writing the header row exactly once, on the first write when the store
does not exist, and otherwise appending without rewriting prior content;
a 400 response or an uncaught exception leaves the store untouched. -/
theorem c9_audit_log_append (learner_id now : String) (data : Dict)
    (pts : List GrammarPoint) (parse : List Char → Option JVal)
    (llm : String → Except String String) (remote : TrOutcome) (audio : Option AudioFile)
    (lid gid typed clock : String) (fs : Option (List CsvLine)) :
    save_log learner_id now data none =
      [CsvLine.header logFieldNames, CsvLine.entry (logRowCells learner_id now data)] ∧
    (∀ lines, save_log learner_id now data (some lines) =
      lines ++ [CsvLine.entry (logRowCells learner_id now data)]) ∧
    (∀ body, (api_text pts parse llm lid gid typed clock fs).response = ApiResponse.ok body →
      (api_text pts parse llm lid gid typed clock fs).fs =
        some (save_log (pyStrip lid) clock body fs)) ∧
    (∀ msg, (api_text pts parse llm lid gid typed clock fs).response =
        ApiResponse.badRequest msg →
      (api_text pts parse llm lid gid typed clock fs).fs = fs) ∧
    (∀ e, (api_text pts parse llm lid gid typed clock fs).response = ApiResponse.exception e →
      (api_text pts parse llm lid gid typed clock fs).fs = fs) ∧
    (∀ body,
      (api_grammar pts parse llm remote audio lid gid typed clock fs).response =
        ApiResponse.ok body →
      (api_grammar pts parse llm remote audio lid gid typed clock fs).fs =
        some (save_log (pyStrip lid) clock body fs)) ∧
    (∀ msg,
      (api_grammar pts parse llm remote audio lid gid typed clock fs).response =
        ApiResponse.badRequest msg →
      (api_grammar pts parse llm remote audio lid gid typed clock fs).fs = fs) ∧
    (∀ e,
      (api_grammar pts parse llm remote audio lid gid typed clock fs).response =
        ApiResponse.exception e →
      (api_grammar pts parse llm remote audio lid gid typed clock fs).fs = fs) := by
  refine ⟨rfl, fun lines => rfl, ?_, ?_, ?_, ?_, ?_, ?_⟩ <;>
    obtain htc := api_text_cases pts parse llm lid gid typed clock fs <;>
    obtain hgc := api_grammar_cases pts parse llm remote audio lid gid typed clock fs
  · intro body hb
    obtain ⟨msg, h⟩ | ⟨e, h⟩ | ⟨fields, h⟩ := htc <;> rw [h] at hb ⊢ <;> simp only at hb ⊢
    · exact absurd hb (by simp)
    · exact absurd hb (by simp)
    · have hbody : attachOutputFields pts (pyIntOfDigits (pyStrip gid)) (pyStrip typed) fields
          = body := by simpa using hb
      rw [hbody]
  · intro msg hb
    obtain ⟨m, h⟩ | ⟨e, h⟩ | ⟨fields, h⟩ := htc <;> rw [h] at hb ⊢ <;>
      simp only at hb ⊢ <;> try exact absurd hb (by simp)
  · intro e hb
    obtain ⟨m, h⟩ | ⟨e2, h⟩ | ⟨fields, h⟩ := htc <;> rw [h] at hb ⊢ <;>
      simp only at hb ⊢ <;> try exact absurd hb (by simp)
  · intro body hb
    obtain ⟨m, a, s, h⟩ | ⟨e, a, s, h⟩ | ⟨tr, fields, a, s, h⟩ := hgc <;>
      rw [h] at hb ⊢ <;> simp only at hb ⊢
    · exact absurd hb (by simp)
    · exact absurd hb (by simp)
    · have hbody : attachOutputFields pts (pyIntOfDigits (pyStrip gid)) tr fields = body := by
        simpa using hb
      rw [hbody]
  · intro msg hb
    obtain ⟨m, a, s, h⟩ | ⟨e, a, s, h⟩ | ⟨tr, fields, a, s, h⟩ := hgc <;>
      rw [h] at hb ⊢ <;> simp only at hb ⊢ <;> try exact absurd hb (by simp)
  · intro e hb
    obtain ⟨m, a, s, h⟩ | ⟨e2, a, s, h⟩ | ⟨tr, fields, a, s, h⟩ := hgc <;>
      rw [h] at hb ⊢ <;> simp only at hb ⊢ <;> try exact absurd hb (by simp)

/-- Witness for C9: a completed `/api/text` evaluation with an
error-shaped result dict and no pre-existing log file writes the header
and exactly one data row. -/
theorem c9_audit_log_append_witness :
    (api_text [] (fun _ => none) (fun _ => Except.ok "no json here")
        "7" "1" "hi" "T" none).fs =
      some (save_log "7" "T"
        [("error", JVal.jstr "Invalid response"), ("raw", JVal.jstr "no json here"),
         ("transcript", JVal.jstr "hi"), ("selected_grammar_label", JVal.jnull)] none) :=
  (c9_audit_log_append "7" "T" [] [] (fun _ => none) (fun _ => Except.ok "no json here")
    TrOutcome.replyNoText none "7" "1" "hi" "T" none).2.2.1
    [("error", JVal.jstr "Invalid response"), ("raw", JVal.jstr "no json here"),
     ("transcript", JVal.jstr "hi"), ("selected_grammar_label", JVal.jnull)] rfl
